import Mathlib

/-!
Verification of the time-tracking and mode state machine of `src/clock.py`
(tirso25/clock).  The embedding models instants and durations as integers
counted in whole seconds (`datetime` values become `Int` instants, `timedelta`
values become `Int` second counts); subtraction, comparison with zero and the
`int(total_seconds())` formatting path of the source behave identically on
this model.  Python floor division and modulus on a positive divisor coincide
with the euclidean `/` and `%` of `Int`, which the formatting functions use.

The mutable fields of `ClockApp.__init__` (together with the month/year cursor
kept by `CalendarDisplay.__init__`) are gathered into one `ClockState` record.
Each UI action and each per-mode tick update of the source becomes a function
on `ClockState`; a tick additionally reports the displayed seconds, the
formatted time string, and the notification it emitted, mirroring
`self.notify` calls.
-/

/-- The five display modes of `ClockApp` (`self.mode`). -/
inductive Mode where
  | clock
  | stopwatch
  | pomodoro
  | timer
  | calendar
deriving DecidableEq, Repr

/-- All mutable engine state of `ClockApp.__init__` (src/clock.py lines
563-587) plus the `CalendarDisplay` cursor (lines 375-379).  Durations and
instants are integer seconds. -/
structure ClockState where
  mode : Mode
  stopwatch_running : Bool
  stopwatch_elapsed : Int
  stopwatch_start_time : Option Int
  pomodoro_running : Bool
  pomodoro_focus_time : Int
  pomodoro_break_time : Int
  pomodoro_remaining : Int
  pomodoro_is_focus : Bool
  pomodoro_start_time : Option Int
  pomodoro_paused_remaining : Option Int
  timer_running : Bool
  timer_duration : Int
  timer_remaining : Int
  timer_start_time : Option Int
  timer_name : String
  timer_finished : Bool
  current_year : Int
  current_month : Int
deriving DecidableEq, Repr

/-- The state built by `ClockApp.__init__` and `CalendarDisplay.__init__`;
the calendar cursor starts at the current year and month, supplied here as
arguments. -/
def initialState (year month : Int) : ClockState :=
  { mode := Mode.clock
  , stopwatch_running := false
  , stopwatch_elapsed := 0
  , stopwatch_start_time := none
  , pomodoro_running := false
  , pomodoro_focus_time := 25
  , pomodoro_break_time := 5
  , pomodoro_remaining := 25 * 60
  , pomodoro_is_focus := true
  , pomodoro_start_time := none
  , pomodoro_paused_remaining := none
  , timer_running := false
  , timer_duration := 0
  , timer_remaining := 0
  , timer_start_time := none
  , timer_name := ""
  , timer_finished := false
  , current_year := year
  , current_month := month }

/-- Python `f"{n:02d}"`: left-pad with a zero to width 2 (negative numbers
keep their sign and are never padded with a leading zero digit). -/
def pad2 (n : Int) : String :=
  if 0 ≤ n ∧ n < 10 then "0" ++ toString n else toString n

/-- The `HH:MM:SS` formatting used by `update_timer` (lines 684-690) and
`update_stopwatch` (lines 738-744): hours, minutes and seconds obtained by
floor division / modulus on the total second count. -/
def formatHMS (ts : Int) : String :=
  pad2 (ts / 3600) ++ ":" ++ pad2 (ts % 3600 / 60) ++ ":" ++ pad2 (ts % 60)

/-- The `00:MM:SS` formatting used by `update_pomodoro` (lines 783-788):
the hours field is the literal `00` and the minutes field is the whole
quotient `total_seconds // 60`, not reduced modulo 60. -/
def formatPomodoro (ts : Int) : String :=
  "00:" ++ pad2 (ts / 60) ++ ":" ++ pad2 (ts % 60)

/-- State transition, pre-clamp displayed seconds, and emission flag of
`ClockApp.update_timer` (lines 663-678): while running with a start instant,
live remaining is the stored remaining minus the elapsed time; crossing zero
stops the run, marks `timer_finished`, and notifies exactly when
`timer_finished` was not already set. -/
def update_timer_core (s : ClockState) (now : Int) : ClockState × Int × Bool :=
  if s.timer_running then
    match s.timer_start_time with
    | some t0 =>
      let remaining := s.timer_remaining - (now - t0)
      if remaining ≤ 0 then
        ({ s with timer_running := false, timer_finished := true }, 0, !s.timer_finished)
      else
        (s, remaining, false)
    | none => (s, s.timer_remaining, false)
  else
    (s, s.timer_remaining, false)

/-- Result of one countdown tick: new state, displayed whole seconds,
formatted time string, and whether the one-shot finished notification fired. -/
structure TimerTick where
  state : ClockState
  seconds : Int
  timeStr : String
  emitted : Bool

/-- `ClockApp.update_timer` (lines 663-711): the core transition followed by
the clamp `if remaining.total_seconds() < 0: remaining = timedelta()`
(lines 680-682) and the `HH:MM:SS` formatting (lines 684-690). -/
def update_timer (s : ClockState) (now : Int) : TimerTick :=
  let r := update_timer_core s now
  let remaining := if r.2.1 < 0 then 0 else r.2.1
  { state := r.1, seconds := remaining, timeStr := formatHMS remaining, emitted := r.2.2 }

/-- State transition, pre-clamp displayed seconds, and phase-change event of
`ClockApp.update_pomodoro` (lines 760-777): crossing zero toggles the phase,
reloads the new phase's configured length (minutes times 60), restarts the
phase clock at `now`, and emits `PhaseChanged` carrying the new phase
(`some isFocus`), as `notify_pomodoro_change` (lines 822-827) reads the
already-toggled `pomodoro_is_focus`. -/
def update_pomodoro_core (s : ClockState) (now : Int) : ClockState × Int × Option Bool :=
  if s.pomodoro_running then
    match s.pomodoro_start_time with
    | some t0 =>
      let remaining := s.pomodoro_remaining - (now - t0)
      if remaining ≤ 0 then
        let isFocus := !s.pomodoro_is_focus
        let newRemaining := (if isFocus then s.pomodoro_focus_time else s.pomodoro_break_time) * 60
        ({ s with pomodoro_is_focus := isFocus
                , pomodoro_remaining := newRemaining
                , pomodoro_start_time := some now },
         newRemaining, some isFocus)
      else
        (s, remaining, none)
    | none => (s, s.pomodoro_remaining, none)
  else
    (s, s.pomodoro_remaining, none)

/-- Result of one pomodoro tick: new state, displayed whole seconds,
formatted time string, and the phase-change event (`some newIsFocus`) when
one fired. -/
structure PomodoroTick where
  state : ClockState
  seconds : Int
  timeStr : String
  event : Option Bool

/-- `ClockApp.update_pomodoro` (lines 760-805): the core transition followed
by the negative clamp (lines 779-781) and the `00:MM:SS` formatting
(lines 783-788). -/
def update_pomodoro (s : ClockState) (now : Int) : PomodoroTick :=
  let r := update_pomodoro_core s now
  let remaining := if r.2.1 < 0 then 0 else r.2.1
  { state := r.1, seconds := remaining, timeStr := formatPomodoro remaining, event := r.2.2 }

/-- The elapsed value computed by `ClockApp.update_stopwatch` (lines 731-736):
`accumulated + (now - startedAt)` while running, the stored accumulation
otherwise.  Pure; the source tick mutates no stopwatch state. -/
def stopwatch_elapsed_at (s : ClockState) (now : Int) : Int :=
  if s.stopwatch_running then
    match s.stopwatch_start_time with
    | some t0 => s.stopwatch_elapsed + (now - t0)
    | none => s.stopwatch_elapsed
  else
    s.stopwatch_elapsed

/-- `ClockApp.update_stopwatch` (lines 731-744): displayed whole seconds and
the `HH:MM:SS` string; no state change and no event. -/
def update_stopwatch (s : ClockState) (now : Int) : Int × String :=
  (stopwatch_elapsed_at s now, formatHMS (stopwatch_elapsed_at s now))

/-- `ClockApp.action_toggle_start` (lines 876-917).  `none` models the
`TypeError` the source would raise when pausing a running stopwatch whose
`stopwatch_start_time` is `None` (line 881 subtracts it unguarded); every
other path is total.  For an unconfigured countdown (`timer_duration == 0`)
the source opens the configuration modal and changes no timer state. -/
def action_toggle_start (s : ClockState) (now : Int) : Option ClockState :=
  match s.mode with
  | Mode.stopwatch =>
    if s.stopwatch_running then
      match s.stopwatch_start_time with
      | some t0 =>
        some { s with stopwatch_elapsed := s.stopwatch_elapsed + (now - t0)
                    , stopwatch_start_time := none
                    , stopwatch_running := false }
      | none => none
    else
      some { s with stopwatch_start_time := some now, stopwatch_running := true }
  | Mode.pomodoro =>
    if s.pomodoro_running then
      let rem := match s.pomodoro_start_time with
        | some t0 => s.pomodoro_remaining - (now - t0)
        | none => s.pomodoro_remaining
      some { s with pomodoro_remaining := rem
                  , pomodoro_start_time := none
                  , pomodoro_running := false }
    else
      some { s with pomodoro_start_time := some now, pomodoro_running := true }
  | Mode.timer =>
    if s.timer_duration = 0 then
      some s
    else if s.timer_running then
      let rem := match s.timer_start_time with
        | some t0 => s.timer_remaining - (now - t0)
        | none => s.timer_remaining
      some { s with timer_remaining := rem
                  , timer_start_time := none
                  , timer_running := false }
    else
      some { s with timer_start_time := some now
                  , timer_running := true
                  , timer_finished := false }
  | _ => some s

/-- `ClockApp.action_reset` (lines 919-936). -/
def action_reset (s : ClockState) : ClockState :=
  match s.mode with
  | Mode.stopwatch =>
    { s with stopwatch_running := false
           , stopwatch_elapsed := 0
           , stopwatch_start_time := none }
  | Mode.pomodoro =>
    { s with pomodoro_running := false
           , pomodoro_is_focus := true
           , pomodoro_remaining := s.pomodoro_focus_time * 60
           , pomodoro_start_time := none }
  | Mode.timer =>
    { s with timer_running := false
           , timer_remaining := s.timer_duration
           , timer_start_time := none
           , timer_finished := false }
  | _ => s

/-- `ConfigModal.on_save` (lines 236-246): the dialog result is the pair of
entered minutes when both are strictly positive, a cancellation otherwise. -/
def ConfigModal_on_save (focus breakT : Int) : Option (Int × Int) :=
  if 0 < focus ∧ 0 < breakT then some (focus, breakT) else none

/-- The `on_result` callback of `ClockApp.action_settings` for pomodoro
(lines 941-951): a present result replaces both lengths, stops and resets
the pomodoro to a fresh focus phase; a cancellation changes nothing. -/
def pomodoro_on_result (s : ClockState) (result : Option (Int × Int)) : ClockState :=
  match result with
  | some (focus, breakT) =>
    { s with pomodoro_focus_time := focus
           , pomodoro_break_time := breakT
           , pomodoro_running := false
           , pomodoro_is_focus := true
           , pomodoro_remaining := focus * 60
           , pomodoro_start_time := none }
  | none => s

/-- Submitting the pomodoro configuration dialog with the given values:
`ConfigModal.on_save` composed with the settings callback. -/
def action_settings_pomodoro (s : ClockState) (focus breakT : Int) : ClockState :=
  pomodoro_on_result s (ConfigModal_on_save focus breakT)

/-- `TimerConfigModal.on_start` (lines 319-331): the dialog result is the
entered triple when `minutes > 0 or seconds > 0`, a cancellation otherwise. -/
def TimerConfigModal_on_start (minutes seconds : Int) (name : String) :
    Option (Int × Int × String) :=
  if 0 < minutes ∨ 0 < seconds then some (minutes, seconds, name) else none

/-- The `on_result` callback of `ClockApp.action_settings` for the countdown
(lines 959-967): a present result stores `timedelta(minutes, seconds)` (that
is, `minutes * 60 + seconds` seconds) as both duration and remaining, stores
the label, and stops and un-finishes the timer; a cancellation changes
nothing. -/
def timer_on_result (s : ClockState) (result : Option (Int × Int × String)) : ClockState :=
  match result with
  | some (minutes, seconds, name) =>
    let duration := minutes * 60 + seconds
    { s with timer_duration := duration
           , timer_remaining := duration
           , timer_name := name
           , timer_running := false
           , timer_start_time := none
           , timer_finished := false }
  | none => s

/-- Submitting the countdown configuration dialog with the given values:
`TimerConfigModal.on_start` composed with the settings callback. -/
def action_settings_timer (s : ClockState) (minutes seconds : Int) (name : String) : ClockState :=
  timer_on_result s (TimerConfigModal_on_start minutes seconds name)

/-- `ClockApp.action_mode_clock` (lines 845-849): only `self.mode` changes. -/
def action_mode_clock (s : ClockState) : ClockState :=
  { s with mode := Mode.clock }

/-- `ClockApp.action_mode_stopwatch` (lines 851-855). -/
def action_mode_stopwatch (s : ClockState) : ClockState :=
  { s with mode := Mode.stopwatch }

/-- `ClockApp.action_mode_pomodoro` (lines 857-861). -/
def action_mode_pomodoro (s : ClockState) : ClockState :=
  { s with mode := Mode.pomodoro }

/-- `ClockApp.action_mode_timer` (lines 869-873). -/
def action_mode_timer (s : ClockState) : ClockState :=
  { s with mode := Mode.timer }

/-- `ClockApp.action_mode_calendar` (lines 863-867). -/
def action_mode_calendar (s : ClockState) : ClockState :=
  { s with mode := Mode.calendar }

/-- `CalendarDisplay.next_month` (lines 386-392). -/
def next_month (s : ClockState) : ClockState :=
  if s.current_month = 12 then
    { s with current_month := 1, current_year := s.current_year + 1 }
  else
    { s with current_month := s.current_month + 1 }

/-- `CalendarDisplay.prev_month` (lines 394-400). -/
def prev_month (s : ClockState) : ClockState :=
  if s.current_month = 1 then
    { s with current_month := 12, current_year := s.current_year - 1 }
  else
    { s with current_month := s.current_month - 1 }

/-- Run a sequence of countdown ticks at the given instants, counting how
many finished notifications fire along the way. -/
def run_timer_ticks (s : ClockState) (nows : List Int) : ClockState × Nat :=
  match nows with
  | [] => (s, 0)
  | n :: rest =>
    let t := update_timer s n
    let r := run_timer_ticks t.state rest
    (r.1, (if t.emitted then 1 else 0) + r.2)

/-- Apply an alternating start/pause pair of `action_toggle_start` commands
for each listed pair of instants, in order. -/
def togglePairs (s : ClockState) (pairs : List (Int × Int)) : Option ClockState :=
  match pairs with
  | [] => some s
  | (t1, t2) :: rest =>
    match action_toggle_start s t1 with
    | some s1 =>
      match action_toggle_start s1 t2 with
      | some s2 => togglePairs s2 rest
      | none => none
    | none => none

/-- Sum of the pause-minus-start gaps of a list of instant pairs. -/
def sumGaps : List (Int × Int) → Int
  | [] => 0
  | (t1, t2) :: rest => (t2 - t1) + sumGaps rest

/-- Equality of every `ClockState` field except the active mode selector:
the frame a mode switch must preserve. -/
def enginesEq (a b : ClockState) : Prop :=
  a.stopwatch_running = b.stopwatch_running ∧
  a.stopwatch_elapsed = b.stopwatch_elapsed ∧
  a.stopwatch_start_time = b.stopwatch_start_time ∧
  a.pomodoro_running = b.pomodoro_running ∧
  a.pomodoro_focus_time = b.pomodoro_focus_time ∧
  a.pomodoro_break_time = b.pomodoro_break_time ∧
  a.pomodoro_remaining = b.pomodoro_remaining ∧
  a.pomodoro_is_focus = b.pomodoro_is_focus ∧
  a.pomodoro_start_time = b.pomodoro_start_time ∧
  a.pomodoro_paused_remaining = b.pomodoro_paused_remaining ∧
  a.timer_running = b.timer_running ∧
  a.timer_duration = b.timer_duration ∧
  a.timer_remaining = b.timer_remaining ∧
  a.timer_start_time = b.timer_start_time ∧
  a.timer_name = b.timer_name ∧
  a.timer_finished = b.timer_finished ∧
  a.current_year = b.current_year ∧
  a.current_month = b.current_month

/-- Sample countdown state for concrete instantiations: a five-second
countdown started at instant 0. -/
def c1State : ClockState :=
  { initialState 2024 1 with
      mode := Mode.timer
    , timer_duration := 5
    , timer_remaining := 5
    , timer_running := true
    , timer_start_time := some 0 }

/-- Sample pomodoro state for concrete instantiations: a running focus phase
with five seconds left, started at instant 0, default 25/5 minute lengths. -/
def c2State : ClockState :=
  { initialState 2024 1 with
      mode := Mode.pomodoro
    , pomodoro_running := true
    , pomodoro_remaining := 5
    , pomodoro_start_time := some 0 }

/-- Sample stopwatch state for concrete instantiations: the fresh app
switched to stopwatch mode. -/
def c4State : ClockState :=
  { initialState 2024 1 with mode := Mode.stopwatch }

/-- A countdown tick at an instant past zero while running stops the run,
marks it finished, and notifies exactly when it was not already finished. -/
theorem update_timer_core_finish (s : ClockState) (now t0 : Int)
    (hrun : s.timer_running = true)
    (hst : s.timer_start_time = some t0)
    (hcross : s.timer_remaining - (now - t0) ≤ 0) :
    update_timer_core s now =
      ({ s with timer_running := false, timer_finished := true }, 0, !s.timer_finished) := by
  simp [update_timer_core, hrun, hst, hcross]

/-- A countdown tick on a stopped timer changes nothing and emits nothing. -/
theorem update_timer_core_not_running (s : ClockState) (now : Int)
    (h : s.timer_running = false) :
    update_timer_core s now = (s, s.timer_remaining, false) := by
  simp [update_timer_core, h]

/-- Any sequence of countdown ticks on a stopped timer leaves the state
unchanged and emits no notification. -/
theorem run_timer_ticks_not_running (s : ClockState)
    (h : s.timer_running = false) :
    ∀ nows : List Int, run_timer_ticks s nows = (s, 0) := by
  intro nows
  induction nows with
  | nil => rfl
  | cons n rest ih =>
    simp [run_timer_ticks, update_timer, update_timer_core_not_running s n h, ih]

/-- C1: on the first countdown tick at which the live remaining (stored
remaining minus time since the start instant) is at most zero while running,
`update_timer` sets `timer_running` to false and `timer_finished` to true and
emits the finished notification; every subsequent tick, at any instants and
however many, emits no further notification. -/
theorem countdown_one_shot_finish (s : ClockState) (now t0 : Int)
    (hrun : s.timer_running = true)
    (hst : s.timer_start_time = some t0)
    (hfin : s.timer_finished = false)
    (hcross : s.timer_remaining - (now - t0) ≤ 0) :
    (update_timer s now).emitted = true ∧
    (update_timer s now).state.timer_running = false ∧
    (update_timer s now).state.timer_finished = true ∧
    ∀ nows : List Int, (run_timer_ticks (update_timer s now).state nows).2 = 0 := by
  have hcore := update_timer_core_finish s now t0 hrun hst hcross
  have hstate : (update_timer s now).state =
      { s with timer_running := false, timer_finished := true } := by
    simp [update_timer, hcore]
  refine ⟨?_, ?_, ?_, ?_⟩
  · simp [update_timer, hcore, hfin]
  · rw [hstate]
  · rw [hstate]
  · intro nows
    rw [hstate, run_timer_ticks_not_running _ rfl nows]

/-- C1 witness: a 0:05 countdown started at instant 0 and ticked at
instant 10 finishes with one notification, and three further ticks emit
none. -/
theorem countdown_one_shot_finish_witness :
    (update_timer c1State 10).emitted = true ∧
    (run_timer_ticks (update_timer c1State 10).state [20, 30, 40]).2 = 0 := by
  have h := countdown_one_shot_finish c1State 10 0 rfl rfl rfl (by decide)
  exact ⟨h.1, h.2.2.2 [20, 30, 40]⟩

/-- A pomodoro tick that crosses zero while running toggles the phase,
reloads the new phase's full length, restarts the phase clock at the tick
instant, and reports the phase change. -/
theorem update_pomodoro_core_cross (s : ClockState) (now t0 : Int)
    (hrun : s.pomodoro_running = true)
    (hst : s.pomodoro_start_time = some t0)
    (hcross : s.pomodoro_remaining - (now - t0) ≤ 0) :
    update_pomodoro_core s now =
      ({ s with pomodoro_is_focus := !s.pomodoro_is_focus
              , pomodoro_remaining :=
                  (if !s.pomodoro_is_focus then s.pomodoro_focus_time
                   else s.pomodoro_break_time) * 60
              , pomodoro_start_time := some now },
       (if !s.pomodoro_is_focus then s.pomodoro_focus_time else s.pomodoro_break_time) * 60,
       some (!s.pomodoro_is_focus)) := by
  simp [update_pomodoro_core, hrun, hst, hcross]

/-- A pomodoro tick with live remaining still positive changes nothing and
reports no phase change. -/
theorem update_pomodoro_core_live (s : ClockState) (now t0 : Int)
    (hrun : s.pomodoro_running = true)
    (hst : s.pomodoro_start_time = some t0)
    (hlive : 0 < s.pomodoro_remaining - (now - t0)) :
    update_pomodoro_core s now = (s, s.pomodoro_remaining - (now - t0), none) := by
  simp [update_pomodoro_core, hrun, hst]
  omega

/-- C2: on a running pomodoro tick whose live remaining (stored remaining
minus time since the start instant) is at most zero, the phase toggles
exactly once, the stored remaining becomes the full configured length of the
new phase (overrun past zero is discarded), the start instant becomes the
tick's instant, and exactly one phase-change notification fires; a
subsequent tick taken while the new phase's live remaining is still positive
fires no further notification and changes no state. -/
theorem pomodoro_phase_toggle (s : ClockState) (now t0 : Int)
    (hrun : s.pomodoro_running = true)
    (hst : s.pomodoro_start_time = some t0)
    (hcross : s.pomodoro_remaining - (now - t0) ≤ 0) :
    (update_pomodoro s now).state.pomodoro_is_focus = !s.pomodoro_is_focus ∧
    (update_pomodoro s now).state.pomodoro_remaining =
      (if !s.pomodoro_is_focus then s.pomodoro_focus_time else s.pomodoro_break_time) * 60 ∧
    (update_pomodoro s now).state.pomodoro_start_time = some now ∧
    (update_pomodoro s now).event = some (!s.pomodoro_is_focus) ∧
    ∀ now2 : Int,
      0 < (update_pomodoro s now).state.pomodoro_remaining - (now2 - now) →
      (update_pomodoro (update_pomodoro s now).state now2).event = none ∧
      (update_pomodoro (update_pomodoro s now).state now2).state
        = (update_pomodoro s now).state := by
  have hcore := update_pomodoro_core_cross s now t0 hrun hst hcross
  have hstate : (update_pomodoro s now).state =
      { s with pomodoro_is_focus := !s.pomodoro_is_focus
             , pomodoro_remaining :=
                 (if !s.pomodoro_is_focus then s.pomodoro_focus_time
                  else s.pomodoro_break_time) * 60
             , pomodoro_start_time := some now } := by
    simp [update_pomodoro, hcore]
  refine ⟨by rw [hstate], by rw [hstate], by rw [hstate], by simp [update_pomodoro, hcore], ?_⟩
  intro now2 hlive
  have hrun2 : (update_pomodoro s now).state.pomodoro_running = true := by
    rw [hstate]; exact hrun
  have hst2 : (update_pomodoro s now).state.pomodoro_start_time = some now := by
    rw [hstate]
  have hcore2 := update_pomodoro_core_live (update_pomodoro s now).state now2 now hrun2 hst2 hlive
  simp [update_pomodoro] at hcore2 ⊢
  rw [hcore2]
  exact ⟨rfl, rfl⟩

/-- C2 witness: a running focus phase with 5 seconds left started at 0,
ticked at 5, flips to break with one notification; the next tick at 10
fires none. -/
theorem pomodoro_phase_toggle_witness :
    (update_pomodoro c2State 5).event = some false ∧
    (update_pomodoro c2State 5).state.pomodoro_remaining = 300 ∧
    (update_pomodoro (update_pomodoro c2State 5).state 10).event = none := by
  have h := pomodoro_phase_toggle c2State 5 0 rfl rfl (by decide)
  exact ⟨h.2.2.2.1, h.2.1, (h.2.2.2.2 10 (by decide)).1⟩

/-- C3 counterexample: the pair (1, -120) is accepted by
`TimerConfigModal.on_start` (its condition is `minutes > 0 or seconds > 0`)
even though minutes + seconds = -119 is not positive and the resulting
configured duration, -60 seconds, is not strictly positive; the claim's
acceptance condition `minutes + seconds > 0` is therefore not the code's. -/
theorem countdown_config_counterexample :
    (TimerConfigModal_on_start 1 (-120) "x").isSome = true ∧
    ¬ (0 < (1 : Int) + (-120)) ∧
    (action_settings_timer (initialState 2024 1) 1 (-120) "x").timer_duration = -60 ∧
    ¬ (0 < (-60 : Int)) := by
  refine ⟨rfl, by decide, rfl, by decide⟩

/-- C3 (amended): a countdown configuration is accepted if and only if
minutes > 0 or seconds > 0 (for non-negative inputs this coincides with
minutes + seconds > 0); on acceptance the configured duration and the
remaining are both set to 60 * minutes + seconds, finished and running
become false, the start instant is cleared, and the label is stored; on
rejection the whole state is unchanged. -/
theorem countdown_config_validation (s : ClockState) (minutes seconds : Int) (name : String) :
    ((TimerConfigModal_on_start minutes seconds name).isSome = true ↔
      (0 < minutes ∨ 0 < seconds)) ∧
    ((0 < minutes ∨ 0 < seconds) →
      (action_settings_timer s minutes seconds name).timer_duration = minutes * 60 + seconds ∧
      (action_settings_timer s minutes seconds name).timer_remaining = minutes * 60 + seconds ∧
      (action_settings_timer s minutes seconds name).timer_running = false ∧
      (action_settings_timer s minutes seconds name).timer_finished = false ∧
      (action_settings_timer s minutes seconds name).timer_start_time = none ∧
      (action_settings_timer s minutes seconds name).timer_name = name) ∧
    (¬ (0 < minutes ∨ 0 < seconds) → action_settings_timer s minutes seconds name = s) := by
  refine ⟨?_, ?_, ?_⟩
  · simp [TimerConfigModal_on_start]
  · intro h
    simp [action_settings_timer, TimerConfigModal_on_start, h, timer_on_result]
  · intro h
    simp [action_settings_timer, TimerConfigModal_on_start, h, timer_on_result]

/-- C3 witness: (0, 5) is accepted and sets remaining to 5 seconds; (0, 0)
is rejected and leaves the initial state untouched. -/
theorem countdown_config_validation_witness :
    ((TimerConfigModal_on_start 0 5 "tea").isSome = true ↔ ((0 : Int) < 0 ∨ (0 : Int) < 5)) ∧
    (action_settings_timer (initialState 2024 1) 0 5 "tea").timer_remaining = 0 * 60 + 5 ∧
    (action_settings_timer (initialState 2024 1) 0 0 "tea" = initialState 2024 1) := by
  have h := countdown_config_validation (initialState 2024 1) 0 5 "tea"
  have h2 := countdown_config_validation (initialState 2024 1) 0 0 "tea"
  exact ⟨h.1, (h.2.1 (Or.inr (by decide))).2.1, h2.2.2 (by decide)⟩

/-- C6: a pomodoro configuration is applied if and only if both entered
lengths are strictly positive; on success both lengths are replaced, running
becomes false, the phase returns to focus, remaining becomes the new focus
length, and the start instant is cleared; on rejection the whole state is
unchanged. -/
theorem pomodoro_config_validation (s : ClockState) (focus breakT : Int) :
    ((ConfigModal_on_save focus breakT).isSome = true ↔ (0 < focus ∧ 0 < breakT)) ∧
    ((0 < focus ∧ 0 < breakT) →
      (action_settings_pomodoro s focus breakT).pomodoro_focus_time = focus ∧
      (action_settings_pomodoro s focus breakT).pomodoro_break_time = breakT ∧
      (action_settings_pomodoro s focus breakT).pomodoro_running = false ∧
      (action_settings_pomodoro s focus breakT).pomodoro_is_focus = true ∧
      (action_settings_pomodoro s focus breakT).pomodoro_remaining = focus * 60 ∧
      (action_settings_pomodoro s focus breakT).pomodoro_start_time = none) ∧
    (¬ (0 < focus ∧ 0 < breakT) → action_settings_pomodoro s focus breakT = s) := by
  refine ⟨?_, ?_, ?_⟩
  · simp [ConfigModal_on_save]
  · intro h
    simp [action_settings_pomodoro, ConfigModal_on_save, h, pomodoro_on_result]
  · intro h
    simp [action_settings_pomodoro, ConfigModal_on_save, h, pomodoro_on_result]

/-- C6 witness: (30, 10) is applied and resets to a 30-minute focus phase;
(0, 10) is rejected and leaves the initial state untouched. -/
theorem pomodoro_config_validation_witness :
    ((ConfigModal_on_save 30 10).isSome = true ↔ ((0 : Int) < 30 ∧ (0 : Int) < 10)) ∧
    (action_settings_pomodoro (initialState 2024 1) 30 10).pomodoro_remaining = 30 * 60 ∧
    (action_settings_pomodoro (initialState 2024 1) 0 10 = initialState 2024 1) := by
  have h := pomodoro_config_validation (initialState 2024 1) 30 10
  have h2 := pomodoro_config_validation (initialState 2024 1) 0 10
  exact ⟨h.1, (h.2.1 ⟨by decide, by decide⟩).2.2.2.2.1, h2.2.2 (by decide)⟩

/-- Starting a paused stopwatch records the start instant and sets running. -/
theorem toggle_start_stopwatch (s : ClockState) (now : Int)
    (hmode : s.mode = Mode.stopwatch) (hrun : s.stopwatch_running = false) :
    action_toggle_start s now =
      some { s with stopwatch_start_time := some now, stopwatch_running := true } := by
  simp [action_toggle_start, hmode, hrun]

/-- Pausing a running stopwatch adds the open interval to the accumulation
and clears the start instant. -/
theorem toggle_pause_stopwatch (s : ClockState) (now t0 : Int)
    (hmode : s.mode = Mode.stopwatch) (hrun : s.stopwatch_running = true)
    (hst : s.stopwatch_start_time = some t0) :
    action_toggle_start s now =
      some { s with stopwatch_elapsed := s.stopwatch_elapsed + (now - t0)
                  , stopwatch_start_time := none
                  , stopwatch_running := false } := by
  simp [action_toggle_start, hmode, hrun, hst]

/-- A paused stopwatch reports exactly its accumulation. -/
theorem stopwatch_elapsed_at_not_running (s : ClockState) (now : Int)
    (h : s.stopwatch_running = false) :
    stopwatch_elapsed_at s now = s.stopwatch_elapsed := by
  simp [stopwatch_elapsed_at, h]

/-- Each start/pause pair adds exactly its gap to the accumulation. -/
theorem togglePairs_elapsed (pairs : List (Int × Int)) :
    ∀ s : ClockState, s.mode = Mode.stopwatch → s.stopwatch_running = false →
    ∃ s2, togglePairs s pairs = some s2 ∧
      s2.stopwatch_elapsed = s.stopwatch_elapsed + sumGaps pairs ∧
      s2.stopwatch_running = false ∧ s2.mode = Mode.stopwatch := by
  induction pairs with
  | nil =>
    intro s hm hr
    exact ⟨s, rfl, by simp [sumGaps], hr, hm⟩
  | cons p rest ih =>
    obtain ⟨t1, t2⟩ := p
    intro s hm hr
    have h1 := toggle_start_stopwatch s t1 hm hr
    have h2 := toggle_pause_stopwatch
      { s with stopwatch_start_time := some t1, stopwatch_running := true } t2 t1 hm rfl rfl
    obtain ⟨s2, heq, helap, hrun2, hmode2⟩ := ih
      { s with stopwatch_elapsed := s.stopwatch_elapsed + (t2 - t1)
             , stopwatch_start_time := none
             , stopwatch_running := false } hm rfl
    refine ⟨s2, ?_, ?_, hrun2, hmode2⟩
    · simp only [togglePairs, h1, h2]
      exact heq
    · rw [helap]
      simp [sumGaps]
      omega

/-- C4: after any alternating sequence of stopwatch start/pause commands
with no reset in between, the accumulated elapsed value grew by exactly the
sum of the pause-minus-start gaps; the elapsed query is the pure formula
`accumulated + (now - startedAt)` while running and `accumulated` while
paused, and the tick only reads it; a reset returns the accumulation to zero
from any state. -/
theorem stopwatch_additivity (s : ClockState) (pairs : List (Int × Int))
    (hmode : s.mode = Mode.stopwatch) (hrun : s.stopwatch_running = false) :
    (∃ s2, togglePairs s pairs = some s2 ∧
      s2.stopwatch_elapsed = s.stopwatch_elapsed + sumGaps pairs ∧
      s2.stopwatch_running = false ∧
      ∀ now, update_stopwatch s2 now = (s2.stopwatch_elapsed, formatHMS s2.stopwatch_elapsed)) ∧
    (∀ s3 : ClockState, ∀ now t0 : Int,
      s3.stopwatch_running = true → s3.stopwatch_start_time = some t0 →
      stopwatch_elapsed_at s3 now = s3.stopwatch_elapsed + (now - t0)) ∧
    (∀ s3 : ClockState, ∀ now : Int,
      s3.stopwatch_running = false → stopwatch_elapsed_at s3 now = s3.stopwatch_elapsed) ∧
    (∀ s4 : ClockState, s4.mode = Mode.stopwatch →
      (action_reset s4).stopwatch_elapsed = 0 ∧ (action_reset s4).stopwatch_running = false) := by
  refine ⟨?_, ?_, ?_, ?_⟩
  · obtain ⟨s2, heq, helap, hrun2, hmode2⟩ := togglePairs_elapsed pairs s hmode hrun
    refine ⟨s2, heq, helap, hrun2, ?_⟩
    intro now
    simp [update_stopwatch, stopwatch_elapsed_at_not_running s2 now hrun2]
  · intro s3 now t0 h1 h2
    simp [stopwatch_elapsed_at, h1, h2]
  · intro s3 now h
    exact stopwatch_elapsed_at_not_running s3 now h
  · intro s4 h
    simp [action_reset, h]

/-- C4 witness: running 0..5 and 10..12 accumulates 7 seconds, and a reset
zeroes the fresh stopwatch. -/
theorem stopwatch_additivity_witness :
    (togglePairs c4State [(0, 5), (10, 12)]).map ClockState.stopwatch_elapsed = some 7 ∧
    (action_reset c4State).stopwatch_elapsed = 0 := by
  have h := stopwatch_additivity c4State [(0, 5), (10, 12)] rfl rfl
  obtain ⟨⟨s2, heq, helap, hrun2, hdisp⟩, helapform, hpause, hreset⟩ := h
  constructor
  · rw [heq]
    simp only [Option.map_some', helap]
    rfl
  · exact (hreset c4State rfl).1

/-- C5 counterexample: after configuring a 61-minute focus length, a
pomodoro tick displays "00:61:00" for 3660 remaining seconds, while the
claimed `HH:MM:SS` decomposition (hours = total div 3600, minutes =
(total mod 3600) div 60, i.e. 00-59) would read "01:01:00"; the pomodoro
snapshot therefore does not use the claimed formatting. -/
theorem display_format_counterexample :
    (update_pomodoro (action_settings_pomodoro (initialState 2024 1) 61 5) 0).seconds = 3660 ∧
    (update_pomodoro (action_settings_pomodoro (initialState 2024 1) 61 5) 0).timeStr
      = "00:61:00" ∧
    formatHMS 3660 = "01:01:00" ∧
    ("00:61:00" : String) ≠ "01:01:00" := by
  refine ⟨rfl, rfl, rfl, by decide⟩

/-- C5 (amended): countdown and stopwatch snapshots use HH:MM:SS with hours
= total div 3600, minutes = (total mod 3600) div 60 (thus 00-59), seconds =
total mod 60; the pomodoro snapshot instead hard-codes "00" hours and shows
minutes = total div 60, which is not reduced modulo 60 and exceeds 59 when
the remaining time is an hour or more. -/
theorem display_format_amended (s : ClockState) (now : Int) :
    (update_timer s now).timeStr = formatHMS (update_timer s now).seconds ∧
    (update_stopwatch s now).2 = formatHMS (update_stopwatch s now).1 ∧
    (update_pomodoro s now).timeStr = formatPomodoro (update_pomodoro s now).seconds ∧
    (∀ v : Int, 0 ≤ v →
      formatHMS v = pad2 (v / 3600) ++ ":" ++ pad2 (v % 3600 / 60) ++ ":" ++ pad2 (v % 60) ∧
      0 ≤ v / 3600 ∧
      0 ≤ v % 3600 / 60 ∧ v % 3600 / 60 < 60 ∧
      0 ≤ v % 60 ∧ v % 60 < 60 ∧
      formatPomodoro v = "00:" ++ pad2 (v / 60) ++ ":" ++ pad2 (v % 60)) := by
  refine ⟨rfl, rfl, rfl, ?_⟩
  intro v hv
  refine ⟨rfl, ?_, ?_, ?_, ?_, ?_, rfl⟩ <;> omega

/-- C5 witness: the fresh pomodoro snapshot matches its format, and 3661
seconds decompose per the HH:MM:SS formula. -/
theorem display_format_amended_witness :
    (update_pomodoro (initialState 2024 1) 0).timeStr
      = formatPomodoro (update_pomodoro (initialState 2024 1) 0).seconds ∧
    formatHMS 3661 =
      pad2 ((3661 : Int) / 3600) ++ ":" ++ pad2 ((3661 : Int) % 3600 / 60)
        ++ ":" ++ pad2 ((3661 : Int) % 60) := by
  have h := display_format_amended (initialState 2024 1) 0
  exact ⟨h.2.2.1, (h.2.2.2 3661 (by decide)).1⟩

/-- C7: every tick's displayed duration is non-negative: countdown and
pomodoro ticks clamp any negatively computed live remaining to zero before
reporting it, and the stopwatch display is non-negative whenever its
accumulation is non-negative and any open run started no later than the
tick instant. -/
theorem display_nonnegative (s : ClockState) (now : Int)
    (hsw : 0 ≤ s.stopwatch_elapsed)
    (hswt : ∀ t0 : Int, s.stopwatch_running = true → s.stopwatch_start_time = some t0 →
      t0 ≤ now) :
    0 ≤ (update_timer s now).seconds ∧
    0 ≤ (update_pomodoro s now).seconds ∧
    0 ≤ (update_stopwatch s now).1 := by
  refine ⟨?_, ?_, ?_⟩
  · simp only [update_timer]
    split <;> omega
  · simp only [update_pomodoro]
    split <;> omega
  · by_cases hr : s.stopwatch_running = true
    · cases hst : s.stopwatch_start_time with
      | none => simp [update_stopwatch, stopwatch_elapsed_at, hr, hst, hsw]
      | some t0 =>
        have ht := hswt t0 hr hst
        simp [update_stopwatch, stopwatch_elapsed_at, hr, hst]
        omega
    · have hr' : s.stopwatch_running = false := by
        cases h : s.stopwatch_running
        · rfl
        · exact absurd h hr
      simp [update_stopwatch, stopwatch_elapsed_at, hr', hsw]

/-- C7 witness: on the fresh state at instant 3, all three displays are
non-negative. -/
theorem display_nonnegative_witness :
    (0 : Int) ≤ (initialState 2024 1).stopwatch_elapsed ∧
    0 ≤ (update_timer (initialState 2024 1) 3).seconds ∧
    0 ≤ (update_pomodoro (initialState 2024 1) 3).seconds ∧
    0 ≤ (update_stopwatch (initialState 2024 1) 3).1 := by
  have h := display_nonnegative (initialState 2024 1) 3 (by decide)
    (fun t0 hr hst => by simp [initialState] at hst)
  exact ⟨by decide, h.1, h.2.1, h.2.2⟩

/-- C8: each of the five mode-select actions changes only the active mode
selector; every stored engine field (stopwatch, pomodoro, countdown,
calendar cursor) is unchanged by the switch. -/
theorem mode_switch_frame (s : ClockState) :
    (action_mode_clock s).mode = Mode.clock ∧ enginesEq (action_mode_clock s) s ∧
    (action_mode_stopwatch s).mode = Mode.stopwatch ∧ enginesEq (action_mode_stopwatch s) s ∧
    (action_mode_pomodoro s).mode = Mode.pomodoro ∧ enginesEq (action_mode_pomodoro s) s ∧
    (action_mode_timer s).mode = Mode.timer ∧ enginesEq (action_mode_timer s) s ∧
    (action_mode_calendar s).mode = Mode.calendar ∧ enginesEq (action_mode_calendar s) s := by
  simp [action_mode_clock, action_mode_stopwatch, action_mode_pomodoro,
    action_mode_timer, action_mode_calendar, enginesEq]

/-- C9: with the month in 1..12, next month maps (year, 12) to (year+1, 1)
and otherwise increments the month keeping the year; previous month maps
(year, 1) to (year-1, 12) and otherwise decrements the month keeping the
year; both preserve the 1..12 bound, and the concrete wraparounds
(2024, 12) -> (2025, 1) and (2024, 1) -> (2023, 12) hold. -/
theorem calendar_navigation (s : ClockState)
    (h1 : 1 ≤ s.current_month) (h2 : s.current_month ≤ 12) :
    ((next_month s).current_month = if s.current_month = 12 then 1 else s.current_month + 1) ∧
    ((next_month s).current_year =
      if s.current_month = 12 then s.current_year + 1 else s.current_year) ∧
    ((prev_month s).current_month = if s.current_month = 1 then 12 else s.current_month - 1) ∧
    ((prev_month s).current_year =
      if s.current_month = 1 then s.current_year - 1 else s.current_year) ∧
    1 ≤ (next_month s).current_month ∧ (next_month s).current_month ≤ 12 ∧
    1 ≤ (prev_month s).current_month ∧ (prev_month s).current_month ≤ 12 ∧
    (next_month (initialState 2024 12)).current_year = 2025 ∧
    (next_month (initialState 2024 12)).current_month = 1 ∧
    (prev_month (initialState 2024 1)).current_year = 2023 ∧
    (prev_month (initialState 2024 1)).current_month = 12 := by
  refine ⟨?_, ?_, ?_, ?_, ?_, ?_, ?_, ?_, rfl, rfl, rfl, rfl⟩ <;>
    simp only [next_month, prev_month] <;> split <;> simp <;> omega

/-- C9 witness: the concrete wraparounds at December 2024 and January 2024. -/
theorem calendar_navigation_witness :
    (1 : Int) ≤ (initialState 2024 12).current_month ∧
    (initialState 2024 12).current_month ≤ 12 ∧
    (next_month (initialState 2024 12)).current_year = 2025 ∧
    (next_month (initialState 2024 12)).current_month = 1 ∧
    (prev_month (initialState 2024 1)).current_year = 2023 ∧
    (prev_month (initialState 2024 1)).current_month = 12 := by
  have h := calendar_navigation (initialState 2024 12) (by decide) (by decide)
  exact ⟨by decide, by decide, h.2.2.2.2.2.2.2.2.1, h.2.2.2.2.2.2.2.2.2.1,
    h.2.2.2.2.2.2.2.2.2.2.1, h.2.2.2.2.2.2.2.2.2.2.2⟩

/-- Starting a configured, stopped countdown records the start instant,
sets running, and clears the finished flag, leaving the stored remaining
untouched. -/
theorem toggle_start_timer (s : ClockState) (now : Int)
    (hmode : s.mode = Mode.timer) (hdur : s.timer_duration ≠ 0)
    (hrun : s.timer_running = false) :
    action_toggle_start s now =
      some { s with timer_start_time := some now
                  , timer_running := true
                  , timer_finished := false } := by
  simp [action_toggle_start, hmode, hdur, hrun]

/-- C10: the countdown tick that detects finish leaves the stored remaining
and the start timestamp unchanged while stopping and finishing the run;
every subsequent tick then reports the stale stored remaining (the value
from before the run or the last pause), not zero, and restarting via the
toggle counts down from that same stale value. -/
theorem countdown_stale_remaining (s : ClockState) (now t0 : Int)
    (hmode : s.mode = Mode.timer)
    (hrun : s.timer_running = true)
    (hst : s.timer_start_time = some t0)
    (hpos : 0 < s.timer_remaining)
    (hdur : s.timer_duration ≠ 0)
    (hcross : s.timer_remaining - (now - t0) ≤ 0) :
    (update_timer s now).state.timer_remaining = s.timer_remaining ∧
    (update_timer s now).state.timer_start_time = some t0 ∧
    (update_timer s now).state.timer_running = false ∧
    (update_timer s now).state.timer_finished = true ∧
    (∀ now2 : Int,
      (update_timer (update_timer s now).state now2).seconds = s.timer_remaining ∧
      (update_timer (update_timer s now).state now2).state = (update_timer s now).state) ∧
    (∀ now3 : Int, ∃ s2, action_toggle_start (update_timer s now).state now3 = some s2 ∧
      s2.timer_running = true ∧ s2.timer_start_time = some now3 ∧
      s2.timer_remaining = s.timer_remaining ∧ s2.timer_finished = false) := by
  have hcore := update_timer_core_finish s now t0 hrun hst hcross
  have hstate : (update_timer s now).state =
      { s with timer_running := false, timer_finished := true } := by
    simp [update_timer, hcore]
  have hnr : (update_timer s now).state.timer_running = false := by rw [hstate]
  refine ⟨by rw [hstate], by rw [hstate]; exact hst, hnr, by rw [hstate], ?_, ?_⟩
  · intro now2
    have hcore2 := update_timer_core_not_running (update_timer s now).state now2 hnr
    have hrem : (update_timer s now).state.timer_remaining = s.timer_remaining := by
      rw [hstate]
    constructor
    · simp only [update_timer] at hcore2 ⊢
      simp only [hcore2]
      simp only [update_timer] at hrem
      rw [hrem, if_neg (by omega)]
    · simp [update_timer] at hcore2 ⊢
      rw [hcore2]
  · intro now3
    have hmode2 : (update_timer s now).state.mode = Mode.timer := by
      rw [hstate]; exact hmode
    have hdur2 : (update_timer s now).state.timer_duration ≠ 0 := by
      rw [hstate]; exact hdur
    refine ⟨_, toggle_start_timer (update_timer s now).state now3 hmode2 hdur2 hnr,
      rfl, rfl, ?_, rfl⟩
    rw [hstate]

/-- C10 witness: finishing the 0:05 countdown at instant 10 keeps 5 seconds
stored; the tick at 20 still reports 5, and restarting at 30 counts down
from 5 again. -/
theorem countdown_stale_remaining_witness :
    (update_timer c1State 10).state.timer_remaining = 5 ∧
    (update_timer (update_timer c1State 10).state 20).seconds = 5 ∧
    (action_toggle_start (update_timer c1State 10).state 30).map ClockState.timer_remaining
      = some 5 := by
  have h := countdown_stale_remaining c1State 10 0 rfl rfl rfl (by decide) (by decide) (by decide)
  obtain ⟨h1, h2, h3, h4, h5, h6⟩ := h
  obtain ⟨s2, heq, hr2, hst2, hrem2, hf2⟩ := h6 30
  refine ⟨h1, (h5 20).1, ?_⟩
  rw [heq]
  simp only [Option.map_some', hrem2]
  rfl
